import Mathlib

/-!
Verification of the cup-tipover-physics repository.

The numerical core of the repository (tipover physics, circle/cylinder
fitting, volume detection) works on IEEE doubles; the shallow embedding
below models those doubles as real numbers, so `Math.sqrt` becomes
`Real.sqrt`, `Math.atan2` becomes an explicitly defined `atan2`, and the
JavaScript `isFinite` guards become vacuous (every real is finite; the
NaN produced by `Math.sqrt` of a negative argument corresponds to
`Real.sqrt` returning `0`, which the same guard `radius <= 0` rejects).
RANSAC's `Math.random()` sampling is modelled by an explicit sampling
oracle passed as an argument: for each iteration the oracle supplies the
list of indices that the uniqueness-enforcing draw produced.
-/

namespace Cup

noncomputable section

/-! ## Embedded definitions (translated from the source) -/

/-- Propositional version of the JS `.filter` loops. -/
def filterP {α : Type} (p : α → Prop) [DecidablePred p] : List α → List α
  | [] => []
  | a :: l => if p a then a :: filterP p l else filterP p l

/-- `interface Vector3` from `tipover-physics.ts`. -/
structure Vector3 where
  x : ℝ
  y : ℝ
  z : ℝ

/-- `interface CylinderParams` (center is the base center). -/
structure CylinderParams where
  center : Vector3
  radius : ℝ
  height : ℝ

/-- `interface PhysicsState`.  The JS boolean `isStable` is modelled as a
proposition. -/
structure PhysicsState where
  fillLevel : ℝ
  tiltAngle : ℝ
  centerOfMass : Vector3
  criticalTipoverAngle : ℝ
  liquidVolume : ℝ
  volumePoured : ℝ
  isStable : Prop
  stabilityMargin : ℝ

/-- `calculateCenterOfMass` from `tipover-physics.ts`. -/
def calculateCenterOfMass (cupMass : ℝ) (cupCentroid : Vector3)
    (liquidVolume liquidDensity : ℝ) (liquidCentroid : Vector3) : Vector3 :=
  let liquidMass := liquidVolume * liquidDensity
  let totalMass := cupMass + liquidMass
  if totalMass = 0 then cupCentroid
  else
    { x := (cupMass * cupCentroid.x + liquidMass * liquidCentroid.x) / totalMass
      y := (cupMass * cupCentroid.y + liquidMass * liquidCentroid.y) / totalMass
      z := (cupMass * cupCentroid.z + liquidMass * liquidCentroid.z) / totalMass }

/-- `calculateLiquidCentroid` from `tipover-physics.ts`. -/
def calculateLiquidCentroid (cylinder : CylinderParams) (fillLevel : ℝ) : Vector3 :=
  let liquidHeight := cylinder.height * fillLevel
  { x := cylinder.center.x
    y := cylinder.center.y + liquidHeight / 2
    z := cylinder.center.z }

/-- `calculateLiquidVolume` from `tipover-physics.ts`. -/
def calculateLiquidVolume (cylinder : CylinderParams) (fillLevel : ℝ) : ℝ :=
  let liquidHeight := cylinder.height * fillLevel
  Real.pi * cylinder.radius ^ 2 * liquidHeight

/-- JavaScript `Math.atan2(y, x)` restricted to real (non-NaN) inputs. -/
def atan2 (y x : ℝ) : ℝ :=
  if 0 < x then Real.arctan (y / x)
  else if x < 0 then
    (if 0 ≤ y then Real.arctan (y / x) + Real.pi else Real.arctan (y / x) - Real.pi)
  else if 0 < y then Real.pi / 2
  else if y < 0 then -(Real.pi / 2)
  else 0

/-- `criticalTipoverAngle` from `tipover-physics.ts`. -/
def criticalTipoverAngle (centerOfMass : Vector3) (baseRadius : ℝ)
    (baseCenter : Vector3) : ℝ :=
  let horizontalDist := Real.sqrt
    ((centerOfMass.x - baseCenter.x) ^ 2 + (centerOfMass.z - baseCenter.z) ^ 2)
  let verticalDist := centerOfMass.y - baseCenter.y
  if verticalDist ≤ 0 then Real.pi / 2
  else
    let effectiveRadius := baseRadius - horizontalDist
    if effectiveRadius ≤ 0 then 0
    else atan2 effectiveRadius verticalDist

/-- `volumePoured` from `tipover-physics.ts`. -/
def volumePoured (tiltAngle : ℝ) (cylinder : CylinderParams) (fillLevel : ℝ) : ℝ :=
  if tiltAngle ≤ 0 then 0
  else
    let liquidHeight := cylinder.height * fillLevel
    let r := cylinder.radius
    let rimDropOnLowSide := 2 * r * Real.sin tiltAngle
    let liquidHeightAboveRim := liquidHeight * Real.cos tiltAngle -
      (cylinder.height - liquidHeight) * Real.tan tiltAngle
    if liquidHeightAboveRim ≤ 0 then 0
    else
      let spillHeight := min liquidHeightAboveRim rimDropOnLowSide
      let spillVolume := spillHeight * r * r * Real.sin tiltAngle
      max 0 spillVolume

/-- `calculatePhysicsState` from `tipover-physics.ts`.  The source gives
`cupMass` and `liquidDensity` the defaults `0.3` and `1000`; here both
are always passed explicitly. -/
def calculatePhysicsState (cylinder : CylinderParams)
    (fillLevel tiltAngle cupMass liquidDensity : ℝ) : PhysicsState :=
  let fillLevel' := max 0 (min 1 fillLevel)
  let tiltAngle' := max 0 (min (Real.pi / 2) tiltAngle)
  let cupCentroid : Vector3 :=
    { x := cylinder.center.x
      y := cylinder.center.y + cylinder.height / 2
      z := cylinder.center.z }
  let liquidVolume := calculateLiquidVolume cylinder fillLevel'
  let liquidCentroid := calculateLiquidCentroid cylinder fillLevel'
  let centerOfMass := calculateCenterOfMass cupMass cupCentroid
    liquidVolume liquidDensity liquidCentroid
  let baseCenter : Vector3 :=
    { x := cylinder.center.x, y := cylinder.center.y, z := cylinder.center.z }
  let criticalAngle := criticalTipoverAngle centerOfMass cylinder.radius baseCenter
  let poured := volumePoured tiltAngle' cylinder fillLevel'
  { fillLevel := fillLevel'
    tiltAngle := tiltAngle'
    centerOfMass := centerOfMass
    criticalTipoverAngle := criticalAngle
    liquidVolume := liquidVolume
    volumePoured := poured
    isStable := tiltAngle' < criticalAngle
    stabilityMargin := (criticalAngle - tiltAngle') * (180 / Real.pi) }

/-- The claim C1 formula for `criticalTipoverAngle`, written in the
spec's own order: `v = comY - baseY`; return `pi/2` when `v <= 0`; with
`h = sqrt((comX-baseX)^2 + (comZ-baseZ)^2)` and
`effectiveRadius = baseRadius - h`, return `0` when
`effectiveRadius <= 0`, else `atan2(effectiveRadius, v)`. -/
def criticalTipoverAngleSpec (com : Vector3) (baseRadius : ℝ)
    (baseCenter : Vector3) : ℝ :=
  let v := com.y - baseCenter.y
  if v ≤ 0 then Real.pi / 2
  else
    let h := Real.sqrt ((com.x - baseCenter.x) ^ 2 + (com.z - baseCenter.z) ^ 2)
    let effectiveRadius := baseRadius - h
    if effectiveRadius ≤ 0 then 0
    else atan2 effectiveRadius v

/-- The claim C2 formula for `volumePoured`, written the spec's way:
`0` when `tiltAngle <= 0`; with `liquidHeight = height * fillLevel`,
`rimDrop = 2 r sin(tilt)` and
`lhar = liquidHeight cos(tilt) - (height - liquidHeight) tan(tilt)`,
`0` when `lhar <= 0`, else `max(0, min(lhar, rimDrop) * r^2 * sin(tilt))`. -/
def volumePouredSpec (tiltAngle : ℝ) (cylinder : CylinderParams)
    (fillLevel : ℝ) : ℝ :=
  if tiltAngle ≤ 0 then 0
  else
    let liquidHeight := cylinder.height * fillLevel
    let r := cylinder.radius
    let rimDropOnLowSide := 2 * r * Real.sin tiltAngle
    let liquidHeightAboveRim := liquidHeight * Real.cos tiltAngle -
      (cylinder.height - liquidHeight) * Real.tan tiltAngle
    if liquidHeightAboveRim ≤ 0 then 0
    else max 0 (min liquidHeightAboveRim rimDropOnLowSide * r ^ 2 * Real.sin tiltAngle)

/-- `interface Circle2D` from `cylinder-fitting.ts`. -/
structure Circle2D where
  center : ℝ × ℝ
  radius : ℝ

/-- A 3x3 matrix of reals, with the entries named by row and column as
the source indexes `m[i][j]`. -/
structure Mat3 where
  m00 : ℝ
  m01 : ℝ
  m02 : ℝ
  m10 : ℝ
  m11 : ℝ
  m12 : ℝ
  m20 : ℝ
  m21 : ℝ
  m22 : ℝ

/-- `determinant3x3` (cofactor expansion along the first row, as written
in the source). -/
def determinant3x3 (m : Mat3) : ℝ :=
  m.m00 * (m.m11 * m.m22 - m.m12 * m.m21) -
  m.m01 * (m.m10 * m.m22 - m.m12 * m.m20) +
  m.m02 * (m.m10 * m.m21 - m.m11 * m.m20)

/-- `replaceColumn(m, col, idx)`. -/
def replaceColumn (m : Mat3) (col : ℝ × ℝ × ℝ) (idx : ℕ) : Mat3 :=
  if idx = 0 then { m with m00 := col.1, m10 := col.2.1, m20 := col.2.2 }
  else if idx = 1 then { m with m01 := col.1, m11 := col.2.1, m21 := col.2.2 }
  else { m with m02 := col.1, m12 := col.2.1, m22 := col.2.2 }

/-- The normal-equations matrix `A` built by `fitCircle2D` from the sums
over the points. -/
def circleMatrixA (points : List (ℝ × ℝ)) : Mat3 :=
  let sumX := (points.map fun p => p.1).sum
  let sumY := (points.map fun p => p.2).sum
  let sumX2 := (points.map fun p => p.1 * p.1).sum
  let sumY2 := (points.map fun p => p.2 * p.2).sum
  let sumXY := (points.map fun p => p.1 * p.2).sum
  { m00 := sumX2, m01 := sumXY, m02 := sumX
    m10 := sumXY, m11 := sumY2, m12 := sumY
    m20 := sumX, m21 := sumY, m22 := (points.length : ℝ) }

/-- The right-hand side `B` built by `fitCircle2D`. -/
def circleVecB (points : List (ℝ × ℝ)) : ℝ × ℝ × ℝ :=
  let sumX2 := (points.map fun p => p.1 * p.1).sum
  let sumY2 := (points.map fun p => p.2 * p.2).sum
  let sumX3 := (points.map fun p => p.1 * p.1 * p.1).sum
  let sumY3 := (points.map fun p => p.2 * p.2 * p.2).sum
  let sumX2Y := (points.map fun p => p.1 * p.1 * p.2).sum
  let sumXY2 := (points.map fun p => p.1 * p.2 * p.2).sum
  ((sumX3 + sumXY2) / 2, (sumX2Y + sumY3) / 2, (sumX2 + sumY2) / 2)

/-- The determinant `det` of the system solved by `fitCircle2D`. -/
def circleDet (points : List (ℝ × ℝ)) : ℝ :=
  determinant3x3 (circleMatrixA points)

/-- The Cramer solution `a` of `fitCircle2D`. -/
def circleA (points : List (ℝ × ℝ)) : ℝ :=
  determinant3x3 (replaceColumn (circleMatrixA points) (circleVecB points) 0) / circleDet points

/-- The Cramer solution `b` of `fitCircle2D`. -/
def circleB (points : List (ℝ × ℝ)) : ℝ :=
  determinant3x3 (replaceColumn (circleMatrixA points) (circleVecB points) 1) / circleDet points

/-- The Cramer solution `c` of `fitCircle2D`. -/
def circleC (points : List (ℝ × ℝ)) : ℝ :=
  determinant3x3 (replaceColumn (circleMatrixA points) (circleVecB points) 2) / circleDet points

/-- The radius `sqrt(c + a*a + b*b)` computed by `fitCircle2D`. -/
def circleRadius (points : List (ℝ × ℝ)) : ℝ :=
  Real.sqrt (circleC points + circleA points * circleA points + circleB points * circleB points)

/-- `fitCircle2D` from `cylinder-fitting.ts` (the spec's
`fitCircleAlgebraic`).  Over the reals the JS guard
`!isFinite(radius) || radius <= 0` collapses to `radius <= 0`: the NaN
that `Math.sqrt` yields on a negative argument corresponds to
`Real.sqrt` returning `0`, which this branch also rejects. -/
def fitCircle2D (points : List (ℝ × ℝ)) : Option Circle2D :=
  if points.length < 3 then none
  else if |circleDet points| < 1e-10 then none
  else if circleRadius points ≤ 0 then none
  else some { center := (circleA points, circleB points), radius := circleRadius points }

/-- The inlier test of `fitCircleRANSAC`:
`|dist(point, center) - radius| < threshold`. -/
def inlierPred (circle : Circle2D) (threshold : ℝ) (p : ℝ × ℝ) : Prop :=
  |Real.sqrt ((p.1 - circle.center.1) ^ 2 + (p.2 - circle.center.2) ^ 2) - circle.radius|
    < threshold

instance (circle : Circle2D) (threshold : ℝ) :
    DecidablePred (inlierPred circle threshold) := fun _ =>
  inferInstanceAs (Decidable (_ < _))

/-- One iteration of the RANSAC loop: fit a circle to the sampled points
and keep it when it beats the best inlier count so far.  The random draw
of 3 distinct indices is supplied by the `sampler` oracle. -/
def ransacStep (points : List (ℝ × ℝ)) (threshold : ℝ) (sampler : ℕ → List ℕ)
    (s : Option Circle2D × ℕ) (iter : ℕ) : Option Circle2D × ℕ :=
  match fitCircle2D ((sampler iter).filterMap fun i => points.get? i) with
  | none => s
  | some circle =>
      let inliers := (filterP (inlierPred circle threshold) points).length
      if inliers > s.2 then (some circle, inliers) else s

/-- `fitCircleRANSAC` from `cylinder-fitting.ts`, with the random
sampling made explicit through the `sampler` oracle: after the iteration
loop the winning circle is refitted from all its inliers. -/
def fitCircleRANSAC (points : List (ℝ × ℝ)) (iterations : ℕ) (threshold : ℝ)
    (sampler : ℕ → List ℕ) : Option Circle2D :=
  if points.length < 3 then none
  else
    let best := (List.range iterations).foldl (ransacStep points threshold sampler) (none, 0)
    match best.1 with
    | none => none
    | some bestCircle =>
        let inlierPoints := filterP (inlierPred bestCircle threshold) points
        if inlierPoints.length ≥ 3 then
          match fitCircle2D inlierPoints with
          | some refined => some refined
          | none => some bestCircle
        else some bestCircle

/-- `interface CylinderFit`. -/
structure CylinderFit where
  center : ℝ × ℝ × ℝ
  radius : ℝ
  height : ℝ
  axis : ℝ × ℝ × ℝ
  confidence : ℝ

/-- The projection `positions.map(([x, y, z]) => [x, z])` that
`fitCylinder` hands to `fitCircleRANSAC`: the source always keeps the
`x` and `z` components, whatever the `axis` argument is. -/
def fitCylinderProjection (positions : List (ℝ × ℝ × ℝ)) : List (ℝ × ℝ) :=
  positions.map fun p => (p.1, p.2.2)

/-- Least vertical coordinate of a point list (the JS loop accumulates
from `Infinity`; the `< 10` guard of `fitCylinder` keeps the list
nonempty, so the default value is never produced). -/
def yMin (positions : List (ℝ × ℝ × ℝ)) : ℝ :=
  ((positions.map fun p => p.2.1).minimum?).getD 0

/-- Greatest vertical coordinate of a point list, see `yMin`. -/
def yMax (positions : List (ℝ × ℝ × ℝ)) : ℝ :=
  ((positions.map fun p => p.2.1).maximum?).getD 0

/-- `fitCylinder` from `cylinder-fitting.ts`.  The source's default
argument `axis = [0, 1, 0]` is passed explicitly by the callers here. -/
def fitCylinder (positions : List (ℝ × ℝ × ℝ)) (axis : ℝ × ℝ × ℝ)
    (sampler : ℕ → List ℕ) : Option CylinderFit :=
  if positions.length < 10 then none
  else
    match fitCircleRANSAC (fitCylinderProjection positions) 200 0.05 sampler with
    | none => none
    | some circle =>
        let minY := yMin positions
        let maxY := yMax positions
        let height := maxY - minY
        if height ≤ 0 then none
        else
          let totalError := (positions.map fun p =>
            |Real.sqrt ((p.1 - circle.center.1) ^ 2 + (p.2.2 - circle.center.2) ^ 2)
              - circle.radius|).sum
          let avgError := totalError / (positions.length : ℝ)
          let confidence := max 0 (1 - avgError / circle.radius)
          some { center := (circle.center.1, minY, circle.center.2)
                 radius := circle.radius
                 height := height
                 axis := axis
                 confidence := confidence }

/-- The projection the spec describes for `fitCylinder`: project each
3-D point onto the plane orthogonal to `axis`, practically by dropping
the coordinate along that axis (stated for the coordinate axes, the
only ones where "drop the axis coordinate" is meaningful). -/
def dropAxisCoordinateSpec (axis : ℝ × ℝ × ℝ) (p : ℝ × ℝ × ℝ) : ℝ × ℝ :=
  if axis = (1, 0, 0) then (p.2.1, p.2.2)
  else if axis = (0, 0, 1) then (p.1, p.2.1)
  else (p.1, p.2.2)

/-- The cup orientation labels. -/
inductive Orientation where
  | upright
  | inverted
  | sideways

/-- The `bounds` record of `ParsedPly` (from `ply-parser.ts`). -/
structure PlyBounds where
  min : ℝ × ℝ × ℝ
  max : ℝ × ℝ × ℝ
  center : ℝ × ℝ × ℝ

/-- The slice of `ParsedPly` that the detector reads: the parsed point
positions and the axis-aligned bounds.  Per-point colors/normals and the
`Float32Array` mirror of the positions carry no information the
detector uses and are omitted. -/
structure ParsedPly where
  points : List (ℝ × ℝ × ℝ)
  bounds : PlyBounds

/-- `getPositions` from `ply-parser.ts` (restricted to the modelled
fields: it maps each parsed point to its position). -/
def getPositions (ply : ParsedPly) : List (ℝ × ℝ × ℝ) :=
  ply.points

/-- `interface VolumeDetectionResult`. -/
structure VolumeDetectionResult where
  cylinder : CylinderFit
  rimHeight : ℝ
  baseHeight : ℝ
  interiorVolume : ℝ
  orientation : Orientation

/-- `computeCovariance`: mean-centered second moments divided by `n`. -/
def computeCovariance (positions : List (ℝ × ℝ × ℝ)) : Mat3 :=
  let n := (positions.length : ℝ)
  let meanX := (positions.map fun p => p.1).sum / n
  let meanY := (positions.map fun p => p.2.1).sum / n
  let meanZ := (positions.map fun p => p.2.2).sum / n
  let c00 := (positions.map fun p => (p.1 - meanX) * (p.1 - meanX)).sum
  let c01 := (positions.map fun p => (p.1 - meanX) * (p.2.1 - meanY)).sum
  let c02 := (positions.map fun p => (p.1 - meanX) * (p.2.2 - meanZ)).sum
  let c11 := (positions.map fun p => (p.2.1 - meanY) * (p.2.1 - meanY)).sum
  let c12 := (positions.map fun p => (p.2.1 - meanY) * (p.2.2 - meanZ)).sum
  let c22 := (positions.map fun p => (p.2.2 - meanZ) * (p.2.2 - meanZ)).sum
  { m00 := c00 / n, m01 := c01 / n, m02 := c02 / n
    m10 := c01 / n, m11 := c11 / n, m12 := c12 / n
    m20 := c02 / n, m21 := c12 / n, m22 := c22 / n }

/-- Matrix-vector multiply, as in `dominantEigenvector`. -/
def matVec (m : Mat3) (v : ℝ × ℝ × ℝ) : ℝ × ℝ × ℝ :=
  (m.m00 * v.1 + m.m01 * v.2.1 + m.m02 * v.2.2,
   m.m10 * v.1 + m.m11 * v.2.1 + m.m12 * v.2.2,
   m.m20 * v.1 + m.m21 * v.2.1 + m.m22 * v.2.2)

/-- One multiply-and-normalize step of the power iteration. -/
def powerStep (cov : Mat3) (v : ℝ × ℝ × ℝ) : ℝ × ℝ × ℝ :=
  let w := matVec cov v
  let len := Real.sqrt (w.1 ^ 2 + w.2.1 ^ 2 + w.2.2 ^ 2)
  (w.1 / len, w.2.1 / len, w.2.2 / len)

/-- `dominantEigenvector`: 50 power-iteration steps from `(1, 0, 0)`. -/
def dominantEigenvector (cov : Mat3) : ℝ × ℝ × ℝ :=
  (powerStep cov)^[50] (1, 0, 0)

/-- `detectOrientation`: snap to the vertical axis when the principal
component is mostly vertical, else keep it and report `sideways`. -/
def detectOrientation (positions : List (ℝ × ℝ × ℝ)) : (ℝ × ℝ × ℝ) × Orientation :=
  let principal := dominantEigenvector (computeCovariance positions)
  if |principal.2.1| > 0.7 then
    ((0, 1, 0), if principal.2.1 > 0 then Orientation.upright else Orientation.inverted)
  else (principal, Orientation.sideways)

/-- `sliceAtHeight`: points whose vertical coordinate is strictly within
half the slice thickness of `height`, projected to `(x, z)`. -/
def sliceAtHeight (positions : List (ℝ × ℝ × ℝ)) (height thickness : ℝ) :
    List (ℝ × ℝ) :=
  (filterP (fun p => |p.2.1 - height| < thickness / 2) positions).map fun p => (p.1, p.2.2)

/-- The center height of band `i` in `findRimHeight`:
`minY + (i + 0.5) * sliceThickness`. -/
def bandHeight (minY sliceThickness : ℝ) (i : ℕ) : ℝ :=
  minY + ((i : ℝ) + 0.5) * sliceThickness

/-- The point count of band `i` in `findRimHeight`. -/
def bandCount (positions : List (ℝ × ℝ × ℝ)) (minY sliceThickness : ℝ) (i : ℕ) : ℕ :=
  (sliceAtHeight positions (bandHeight minY sliceThickness i) sliceThickness).length

/-- The top-down scan of `findRimHeight`: starting at band
`numSlices - 1` and walking down, return the first band index whose
count strictly exceeds the threshold. -/
def rimScan (count : ℕ → ℕ) (threshold : ℝ) : ℕ → Option ℕ
  | 0 => none
  | i + 1 => if (count i : ℝ) > threshold then some i else rimScan count threshold i

/-- `findRimHeight` from `volume-detection.ts` (the source's default
`numSlices = 20` is passed explicitly by `detectVolume`). -/
def findRimHeight (positions : List (ℝ × ℝ × ℝ)) (minY maxY : ℝ)
    (numSlices : ℕ) : ℝ :=
  let sliceThickness := (maxY - minY) / (numSlices : ℝ)
  let counts := (List.range numSlices).map (bandCount positions minY sliceThickness)
  let maxDensity := counts.foldr max 0
  let threshold := (maxDensity : ℝ) * 0.3
  match rimScan (bandCount positions minY sliceThickness) threshold numSlices with
  | some i => bandHeight minY sliceThickness i
  | none => maxY

/-- `detectVolume` from `volume-detection.ts`.  The two RANSAC
invocations (rim-circle fit and full-cylinder fallback) draw fresh
random samples in the source, so each gets its own sampling oracle. -/
def detectVolume (ply : ParsedPly) (rimSampler fallbackSampler : ℕ → List ℕ) :
    Option VolumeDetectionResult :=
  let positions := getPositions ply
  if positions.length < 100 then none
  else
    let ao := detectOrientation positions
    let minY := ply.bounds.min.2.1
    let maxY := ply.bounds.max.2.1
    let rimHeight := findRimHeight positions minY maxY 20
    let rimPoints := sliceAtHeight positions rimHeight ((maxY - minY) * 0.1)
    match fitCircleRANSAC rimPoints 200 0.05 rimSampler with
    | none =>
        match fitCylinder positions (0, 1, 0) fallbackSampler with
        | none => none
        | some cylinder =>
            some { cylinder := cylinder
                   rimHeight := cylinder.center.2.1 + cylinder.height
                   baseHeight := cylinder.center.2.1
                   interiorVolume := Real.pi * cylinder.radius ^ 2 * cylinder.height
                   orientation := ao.2 }
    | some rimCircle =>
        let interiorRadius := rimCircle.radius * 0.85
        let baseHeight := minY
        let height := rimHeight - baseHeight
        some { cylinder := { center := (rimCircle.center.1, baseHeight, rimCircle.center.2)
                             radius := interiorRadius
                             height := max 0.01 height
                             axis := ao.1
                             confidence := 0.8 }
               rimHeight := rimHeight
               baseHeight := baseHeight
               interiorVolume := max 0 (Real.pi * interiorRadius ^ 2 * height)
               orientation := ao.2 }

/-! ## Test fixtures

A concrete detection scenario, evaluated end to end.  100 points: four
rim points at height `1/200` whose `(x, z)` projections lie on the
circle of center `(3, 4)` and radius `5` (a circle through the origin,
so the algebraic fit reproduces it exactly), and 96 base points at
height `0`.  Both heights sit exactly on band boundaries of
`findRimHeight`, so every band count is zero, no band beats the
threshold, and the rim defaults to the top of the bounds `1/200`.  The
resulting unfloored cylinder height `1/200` is below the `0.01` floor,
which separates the floored `cylinder.height` from the height used for
`interiorVolume`. -/

/-- Sampling oracle drawing indices 0, 1, 2 in every iteration. -/
def testSampler : ℕ → List ℕ := fun _ => [0, 1, 2]

/-- The hundred-point test cloud. -/
def testPositions : List (ℝ × ℝ × ℝ) :=
  [(0, 1/200, 0), (6, 1/200, 0), (0, 1/200, 8), (6, 1/200, 8)] ++
    List.replicate 96 (3, 0, 4)

/-- The test cloud packaged with its (consistent) bounds. -/
def testPly : ParsedPly :=
  { points := testPositions
    bounds := { min := (0, 0, 0), max := (6, 1/200, 8), center := (3, 1/400, 4) } }

/-- The rim-slice projections of the four rim points. -/
def rimSlicePts : List (ℝ × ℝ) := [(0, 0), (6, 0), (0, 8), (6, 8)]

/-- The three points the oracle samples. -/
def sample3 : List (ℝ × ℝ) := [(0, 0), (6, 0), (0, 8)]

/-- The circle through the three sampled points. -/
def testCircle : Circle2D := { center := (3, 4), radius := 5 }

/-- The concrete point set used to refute the claimed axis-dependent
projection: ten points, the first of which separates the `(x, z)`
projection from the drop-the-x-coordinate projection. -/
def testAxisPoints : List (ℝ × ℝ × ℝ) :=
  (1, 2, 3) :: List.replicate 9 (0, 0, 0)

/-- The value `detectVolume` produces on the test cloud (the orientation
fields are carried symbolically; they play no role in the disputed
fields). -/
def testResult : VolumeDetectionResult :=
  { cylinder := { center := (testCircle.center.1, 0, testCircle.center.2)
                  radius := testCircle.radius * 0.85
                  height := max 0.01 (1/200 - 0)
                  axis := (detectOrientation testPositions).1
                  confidence := 0.8 }
    rimHeight := 1/200
    baseHeight := 0
    interiorVolume := max 0 (Real.pi * (testCircle.radius * 0.85) ^ 2 * (1/200 - 0))
    orientation := (detectOrientation testPositions).2 }

/-! ## Theorems -/

theorem filterP_nil {α : Type} (p : α → Prop) [DecidablePred p] :
    filterP p [] = [] := rfl

theorem filterP_cons {α : Type} (p : α → Prop) [DecidablePred p] (a : α) (l : List α) :
    filterP p (a :: l) = if p a then a :: filterP p l else filterP p l := rfl

theorem filterP_append {α : Type} (p : α → Prop) [DecidablePred p] (l₁ l₂ : List α) :
    filterP p (l₁ ++ l₂) = filterP p l₁ ++ filterP p l₂ := by
  induction l₁ with
  | nil => rfl
  | cons a l ih =>
      simp only [List.cons_append, filterP]
      split <;> simp [ih]

theorem filterP_replicate {α : Type} (p : α → Prop) [DecidablePred p] (n : ℕ) (a : α) :
    filterP p (List.replicate n a) =
      if p a then List.replicate n a else [] := by
  induction n with
  | zero => simp [filterP]
  | succ n ih =>
      simp only [List.replicate_succ, filterP, ih]
      split <;> simp

theorem filterP_eq_nil_of_not {α : Type} (p : α → Prop) [DecidablePred p] (l : List α)
    (h : ∀ a ∈ l, ¬ p a) : filterP p l = [] := by
  induction l with
  | nil => rfl
  | cons a l ih =>
      rw [filterP_cons, if_neg (h a (List.mem_cons_self a l))]
      exact ih fun b hb => h b (List.mem_cons_of_mem a hb)

theorem filterP_eq_self_of_all {α : Type} (p : α → Prop) [DecidablePred p] (l : List α)
    (h : ∀ a ∈ l, p a) : filterP p l = l := by
  induction l with
  | nil => rfl
  | cons a l ih =>
      rw [filterP_cons, if_pos (h a (List.mem_cons_self a l))]
      rw [ih fun b hb => h b (List.mem_cons_of_mem a hb)]

/-- A `foldl` whose state is a fixed point of every step stays there. -/
theorem foldl_fixed {σ α : Type} (g : σ → α → σ) (s : σ)
    (h : ∀ x, g s x = s) : ∀ l : List α, l.foldl g s = s := by
  intro l
  induction l with
  | nil => rfl
  | cons a l ih => rw [List.foldl_cons, h a, ih]

/-- Invariants are preserved along `foldl`. -/
theorem foldl_preserve {σ α : Type} (P : σ → Prop) (g : σ → α → σ)
    (hstep : ∀ s x, P s → P (g s x)) :
    ∀ (l : List α) (s : σ), P s → P (l.foldl g s) := by
  intro l
  induction l with
  | nil => exact fun s hs => hs
  | cons a l ih => exact fun s hs => ih (g s a) (hstep s a hs)

/-- C1: for every center of mass, base radius and base center,
`criticalTipoverAngle` returns `pi/2` when the vertical offset
`v = comY - baseY` is nonpositive; otherwise, with
`effectiveRadius = baseRadius - sqrt((comX-baseX)^2 + (comZ-baseZ)^2)`,
it returns `0` when `effectiveRadius <= 0` and
`atan2(effectiveRadius, v)` otherwise — i.e. the source function agrees
everywhere with the formula stated by the spec. -/
theorem criticalTipoverAngle_matches_spec :
    ∀ (com : Vector3) (baseRadius : ℝ) (baseCenter : Vector3),
      criticalTipoverAngle com baseRadius baseCenter =
        criticalTipoverAngleSpec com baseRadius baseCenter := by
  intro com baseRadius baseCenter
  rfl

/-- C2: `volumePoured` agrees everywhere with the spec's formula
(`0` for nonpositive tilt, `0` when the liquid sits below the rim,
otherwise the wedge approximation
`max(0, min(lhar, rimDrop) r^2 sin tilt)`), and in particular an upright
cup (`tiltAngle = 0`) never pours. -/
theorem volumePoured_matches_spec :
    (∀ (tiltAngle : ℝ) (cylinder : CylinderParams) (fillLevel : ℝ),
      volumePoured tiltAngle cylinder fillLevel =
        volumePouredSpec tiltAngle cylinder fillLevel) ∧
    (∀ (cylinder : CylinderParams) (fillLevel : ℝ),
      volumePoured 0 cylinder fillLevel = 0) := by
  constructor
  · intro tiltAngle cylinder fillLevel
    unfold volumePoured volumePouredSpec
    dsimp only
    split_ifs with h1 h2
    · rfl
    · rfl
    · ring_nf
  · intro cylinder fillLevel
    unfold volumePoured
    rw [if_pos le_rfl]

/-- C3: `calculatePhysicsState` clamps `fillLevel` to `[0,1]` and
`tiltAngle` to `[0, pi/2]`; the returned state's critical angle is the
critical tipover angle of the computed center of mass over the cylinder
base; `isStable` holds exactly when the clamped tilt is below the
critical angle; `stabilityMargin` is the radian gap converted to
degrees, and is negative exactly when the clamped tilt exceeds the
critical angle. -/
theorem calculatePhysicsState_stability :
    ∀ (cylinder : CylinderParams) (fillLevel tiltAngle cupMass liquidDensity : ℝ),
      (calculatePhysicsState cylinder fillLevel tiltAngle cupMass liquidDensity).fillLevel
          = max 0 (min 1 fillLevel) ∧
      (calculatePhysicsState cylinder fillLevel tiltAngle cupMass liquidDensity).tiltAngle
          = max 0 (min (Real.pi / 2) tiltAngle) ∧
      (calculatePhysicsState cylinder fillLevel tiltAngle cupMass liquidDensity).criticalTipoverAngle
          = criticalTipoverAngle
              (calculateCenterOfMass cupMass
                { x := cylinder.center.x
                  y := cylinder.center.y + cylinder.height / 2
                  z := cylinder.center.z }
                (calculateLiquidVolume cylinder (max 0 (min 1 fillLevel)))
                liquidDensity
                (calculateLiquidCentroid cylinder (max 0 (min 1 fillLevel))))
              cylinder.radius
              { x := cylinder.center.x, y := cylinder.center.y, z := cylinder.center.z } ∧
      ((calculatePhysicsState cylinder fillLevel tiltAngle cupMass liquidDensity).isStable ↔
        max 0 (min (Real.pi / 2) tiltAngle) <
          (calculatePhysicsState cylinder fillLevel tiltAngle cupMass liquidDensity).criticalTipoverAngle) ∧
      (calculatePhysicsState cylinder fillLevel tiltAngle cupMass liquidDensity).stabilityMargin
          = ((calculatePhysicsState cylinder fillLevel tiltAngle cupMass liquidDensity).criticalTipoverAngle
              - max 0 (min (Real.pi / 2) tiltAngle)) * (180 / Real.pi) ∧
      ((calculatePhysicsState cylinder fillLevel tiltAngle cupMass liquidDensity).stabilityMargin < 0 ↔
        (calculatePhysicsState cylinder fillLevel tiltAngle cupMass liquidDensity).criticalTipoverAngle
          < max 0 (min (Real.pi / 2) tiltAngle)) := by
  intro cylinder fillLevel tiltAngle cupMass liquidDensity
  refine ⟨rfl, rfl, rfl, Iff.rfl, rfl, ?_⟩
  unfold calculatePhysicsState
  constructor
  · intro h
    by_contra hc
    push_neg at hc
    have hk : (0:ℝ) < 180 / Real.pi := by positivity
    nlinarith
  · intro h
    have hk : (0:ℝ) < 180 / Real.pi := by positivity
    have hneg : criticalTipoverAngle
        (calculateCenterOfMass cupMass
          { x := cylinder.center.x
            y := cylinder.center.y + cylinder.height / 2
            z := cylinder.center.z }
          (calculateLiquidVolume cylinder (max 0 (min 1 fillLevel)))
          liquidDensity
          (calculateLiquidCentroid cylinder (max 0 (min 1 fillLevel))))
        cylinder.radius
        { x := cylinder.center.x, y := cylinder.center.y, z := cylinder.center.z }
        - max 0 (min (Real.pi / 2) tiltAngle) < 0 := by linarith
    nlinarith

/-- C9: `calculateCenterOfMass` is total: with zero total mass it
returns the cup centroid unchanged (no division by zero is performed),
and with nonzero total mass it returns the componentwise mass-weighted
average of the cup and liquid centroids. -/
theorem calculateCenterOfMass_total :
    ∀ (cupMass : ℝ) (cupCentroid : Vector3) (liquidVolume liquidDensity : ℝ)
      (liquidCentroid : Vector3),
      (cupMass + liquidVolume * liquidDensity = 0 →
        calculateCenterOfMass cupMass cupCentroid liquidVolume liquidDensity liquidCentroid
          = cupCentroid) ∧
      (cupMass + liquidVolume * liquidDensity ≠ 0 →
        calculateCenterOfMass cupMass cupCentroid liquidVolume liquidDensity liquidCentroid
          = { x := (cupMass * cupCentroid.x + liquidVolume * liquidDensity * liquidCentroid.x)
                    / (cupMass + liquidVolume * liquidDensity)
              y := (cupMass * cupCentroid.y + liquidVolume * liquidDensity * liquidCentroid.y)
                    / (cupMass + liquidVolume * liquidDensity)
              z := (cupMass * cupCentroid.z + liquidVolume * liquidDensity * liquidCentroid.z)
                    / (cupMass + liquidVolume * liquidDensity) }) := by
  intro cupMass cupCentroid liquidVolume liquidDensity liquidCentroid
  constructor
  · intro h
    unfold calculateCenterOfMass
    rw [if_pos h]
  · intro h
    unfold calculateCenterOfMass
    rw [if_neg h]

/-- Witness for C9 at a concrete input with nonzero total mass. -/
theorem calculateCenterOfMass_total_witness :
    calculateCenterOfMass 1 ⟨0, 2, 0⟩ 1 1 ⟨0, 4, 0⟩
      = { x := (1 * 0 + 1 * 1 * 0) / (1 + 1 * 1)
          y := (1 * 2 + 1 * 1 * 4) / (1 + 1 * 1)
          z := (1 * 0 + 1 * 1 * 0) / (1 + 1 * 1) } :=
  (calculateCenterOfMass_total 1 ⟨0, 2, 0⟩ 1 1 ⟨0, 4, 0⟩).2 (by norm_num)

/-- Any circle produced by `fitCircle2D` has strictly positive radius. -/
theorem fitCircle2D_some_radius_pos (points : List (ℝ × ℝ)) (c : Circle2D)
    (h : fitCircle2D points = some c) : 0 < c.radius := by
  unfold fitCircle2D at h
  split_ifs at h with h1 h2 h3
  cases h
  exact not_le.mp h3

/-- One RANSAC iteration preserves positivity of the stored radius. -/
theorem ransacStep_radius_preserve (points : List (ℝ × ℝ)) (threshold : ℝ)
    (sampler : ℕ → List ℕ) (s : Option Circle2D × ℕ) (iter : ℕ)
    (hs : ∀ c', s.1 = some c' → 0 < c'.radius) :
    ∀ c', (ransacStep points threshold sampler s iter).1 = some c' → 0 < c'.radius := by
  intro c' hc'
  unfold ransacStep at hc'
  cases hfit : fitCircle2D ((sampler iter).filterMap fun i => points.get? i) with
  | none =>
      rw [hfit] at hc'
      exact hs c' hc'
  | some cir =>
      rw [hfit] at hc'
      dsimp only at hc'
      by_cases hgt : (filterP (inlierPred cir threshold) points).length > s.2
      · rw [if_pos hgt] at hc'
        cases hc'
        exact fitCircle2D_some_radius_pos _ c' hfit
      · rw [if_neg hgt] at hc'
        exact hs c' hc'

/-- Any circle produced by `fitCircleRANSAC` has strictly positive
radius: the loop state only ever stores circles coming out of
`fitCircle2D`, and so does the refit. -/
theorem fitCircleRANSAC_some_radius_pos (points : List (ℝ × ℝ)) (iterations : ℕ)
    (threshold : ℝ) (sampler : ℕ → List ℕ) (c : Circle2D)
    (h : fitCircleRANSAC points iterations threshold sampler = some c) : 0 < c.radius := by
  unfold fitCircleRANSAC at h
  split_ifs at h with h1
  have hinv : ∀ c', (List.foldl (ransacStep points threshold sampler) (none, 0)
      (List.range iterations)).1 = some c' → 0 < c'.radius := by
    refine foldl_preserve (fun s => ∀ c', s.1 = some c' → 0 < c'.radius)
      (ransacStep points threshold sampler)
      (fun s x hs => ransacStep_radius_preserve points threshold sampler s x hs)
      (List.range iterations) (none, 0) ?_
    intro c' hc'
    cases hc'
  revert h
  dsimp only
  cases hbest : (List.foldl (ransacStep points threshold sampler) (none, 0)
      (List.range iterations)).1 with
  | none =>
      intro h
      cases h
  | some bestCircle =>
      have hbestpos : 0 < bestCircle.radius := hinv bestCircle hbest
      dsimp only
      by_cases hlen : (filterP (inlierPred bestCircle threshold) points).length ≥ 3
      · rw [if_pos hlen]
        cases hrefit : fitCircle2D (filterP (inlierPred bestCircle threshold) points) with
        | some refined =>
            intro h
            cases h
            exact fitCircle2D_some_radius_pos _ c hrefit
        | none =>
            intro h
            cases h
            exact hbestpos
      · rw [if_neg hlen]
        intro h
        cases h
        exact hbestpos

/-- For three points the normal-equations determinant is the square of
the triangle determinant, hence zero exactly on collinear triples. -/
theorem circleDet_three (p₁ p₂ p₃ : ℝ × ℝ) :
    circleDet [p₁, p₂, p₃] =
      ((p₂.1 - p₁.1) * (p₃.2 - p₁.2) - (p₃.1 - p₁.1) * (p₂.2 - p₁.2)) ^ 2 := by
  unfold circleDet circleMatrixA determinant3x3
  simp only [List.map_cons, List.map_nil, List.sum_cons, List.sum_nil, List.length_cons,
    List.length_nil]
  push_cast
  ring

/-- C5: `fitCircle2D` (the spec's `fitCircleAlgebraic`) fails exactly
when fewer than 3 points are given, the normal-equations determinant has
absolute value below `1e-10`, or the computed radius is nonpositive
(over the reals the JS non-finiteness guard is subsumed: a NaN radius
maps to `Real.sqrt _ = 0`); every circle it does return has radius
`> 0`; and on any 3 collinear points it fails, because the determinant
is then exactly zero. -/
theorem fitCircle2D_failure_characterization :
    ∀ points : List (ℝ × ℝ),
      (fitCircle2D points = none ↔
        points.length < 3 ∨ |circleDet points| < 1e-10 ∨ circleRadius points ≤ 0) ∧
      (∀ c : Circle2D, fitCircle2D points = some c → 0 < c.radius) ∧
      (∀ p₁ p₂ p₃ : ℝ × ℝ, points = [p₁, p₂, p₃] →
        (p₂.1 - p₁.1) * (p₃.2 - p₁.2) = (p₃.1 - p₁.1) * (p₂.2 - p₁.2) →
        fitCircle2D points = none) := by
  intro points
  refine ⟨?_, fun c h => fitCircle2D_some_radius_pos points c h, ?_⟩
  · unfold fitCircle2D
    split_ifs with h1 h2 h3
    · simp [h1]
    · simp [h2]
    · simp [h3]
    · simp [h1, h2, h3]
  · intro p₁ p₂ p₃ hpts hcol
    subst hpts
    have hdet : circleDet [p₁, p₂, p₃] = 0 := by
      rw [circleDet_three, hcol]
      ring
    unfold fitCircle2D
    rw [if_neg (by simp), if_pos (by rw [hdet, abs_zero]; norm_num)]

/-- Witness for C5: three concrete collinear points are rejected. -/
theorem fitCircle2D_failure_characterization_witness :
    fitCircle2D [(0, 0), (1, 1), (2, 2)] = none :=
  (fitCircle2D_failure_characterization [(0, 0), (1, 1), (2, 2)]).2.2
    (0, 0) (1, 1) (2, 2) rfl (by norm_num)

/-- Any cylinder produced by `fitCylinder` has strictly positive radius
(inherited from the RANSAC circle) and strictly positive height (the
`height <= 0` guard). -/
theorem fitCylinder_some_pos (positions : List (ℝ × ℝ × ℝ)) (axis : ℝ × ℝ × ℝ)
    (sampler : ℕ → List ℕ) (f : CylinderFit)
    (h : fitCylinder positions axis sampler = some f) :
    0 < f.radius ∧ 0 < f.height := by
  unfold fitCylinder at h
  split_ifs at h with h1
  revert h
  cases hfit : fitCircleRANSAC (fitCylinderProjection positions) 200 0.05 sampler with
  | none =>
      intro h
      cases h
  | some circle =>
      dsimp only
      split_ifs with hh
      · intro h
        cases h
      · intro h
        cases h
        refine ⟨fitCircleRANSAC_some_radius_pos _ _ _ _ _ hfit, ?_⟩
        exact not_le.mp hh

/-- When no band qualifies, the scan returns nothing. -/
theorem rimScan_eq_none (count : ℕ → ℕ) (threshold : ℝ) (n : ℕ)
    (h : ∀ i, i < n → ¬((count i : ℝ) > threshold)) :
    rimScan count threshold n = none := by
  induction n with
  | zero => rfl
  | succ m ih =>
      unfold rimScan
      rw [if_neg (h m (Nat.lt_succ_self m))]
      exact ih fun i hi => h i (Nat.lt_succ_of_lt hi)

/-- The scan returns the topmost qualifying band. -/
theorem rimScan_eq_some (count : ℕ → ℕ) (threshold : ℝ) (n i : ℕ)
    (hi : i < n) (hgt : (count i : ℝ) > threshold)
    (htop : ∀ j, i < j → j < n → ¬((count j : ℝ) > threshold)) :
    rimScan count threshold n = some i := by
  induction n with
  | zero => exact absurd hi (Nat.not_lt_zero i)
  | succ m ih =>
      unfold rimScan
      by_cases hm : (count m : ℝ) > threshold
      · rw [if_pos hm]
        have him : i = m := by
          by_contra hne
          have hilt : i < m := lt_of_le_of_ne (Nat.lt_succ_iff.mp hi) hne
          exact htop m hilt (Nat.lt_succ_self m) hm
        rw [him]
      · rw [if_neg hm]
        have hi' : i < m := by
          rcases Nat.lt_succ_iff_lt_or_eq.mp hi with h | h
          · exact h
          · exact absurd (h ▸ hgt) hm
        exact ih hi' fun j hj hjm => htop j hj (Nat.lt_succ_of_lt hjm)

/-- C7: `findRimHeight` slices `[minY, maxY]` into 20 equal bands,
counts the points strictly within half a band thickness of each band
center, takes `threshold = 0.3 * (maximum band count)` and returns the
center height of the topmost band whose count strictly exceeds the
threshold, or `maxY` when no band qualifies. -/
theorem findRimHeight_characterization :
    ∀ (positions : List (ℝ × ℝ × ℝ)) (minY maxY : ℝ),
      ((∀ i, i < 20 →
          ¬((bandCount positions minY ((maxY - minY) / ((20:ℕ) : ℝ)) i : ℝ) >
            ((((List.range 20).map
                (bandCount positions minY ((maxY - minY) / ((20:ℕ) : ℝ)))).foldr max 0 : ℕ) : ℝ)
              * 0.3)) →
        findRimHeight positions minY maxY 20 = maxY) ∧
      (∀ i, i < 20 →
        ((bandCount positions minY ((maxY - minY) / ((20:ℕ) : ℝ)) i : ℝ) >
          ((((List.range 20).map
              (bandCount positions minY ((maxY - minY) / ((20:ℕ) : ℝ)))).foldr max 0 : ℕ) : ℝ)
            * 0.3) →
        (∀ j, i < j → j < 20 →
          ¬((bandCount positions minY ((maxY - minY) / ((20:ℕ) : ℝ)) j : ℝ) >
            ((((List.range 20).map
                (bandCount positions minY ((maxY - minY) / ((20:ℕ) : ℝ)))).foldr max 0 : ℕ) : ℝ)
              * 0.3)) →
        findRimHeight positions minY maxY 20 =
          bandHeight minY ((maxY - minY) / ((20:ℕ) : ℝ)) i) := by
  intro positions minY maxY
  constructor
  · intro h
    unfold findRimHeight
    dsimp only
    rw [rimScan_eq_none _ _ _ h]
  · intro i hi hgt htop
    unfold findRimHeight
    dsimp only
    rw [rimScan_eq_some _ _ _ i hi hgt htop]

/-- Auxiliary: the fold of `max` over constantly zero counts is zero. -/
theorem foldr_max_replicate_zero (n : ℕ) :
    (List.replicate n (0 : ℕ)).foldr max 0 = 0 := by
  induction n with
  | zero => rfl
  | succ m ih => simp [List.replicate_succ, ih]

/-- Witness for C7: with no points at all, no band qualifies and the top
of the bounds is returned. -/
theorem findRimHeight_characterization_witness :
    findRimHeight [] 0 1 20 = 1 := by
  refine (findRimHeight_characterization [] 0 1).1 ?_
  intro i hi
  have hzero : ∀ j : ℕ, bandCount [] 0 ((1 - 0) / ((20:ℕ) : ℝ)) j = 0 := by
    intro j
    rfl
  rw [hzero i]
  have hmap : (List.range 20).map (bandCount [] 0 ((1 - 0) / ((20:ℕ) : ℝ)))
      = List.replicate 20 0 := by
    rw [show (List.replicate 20 0 : List ℕ)
        = (List.range 20).map (fun _ => 0) by simp [List.map_const']]
    exact List.map_congr_left fun j _ => hzero j
  rw [hmap, foldr_max_replicate_zero]
  norm_num

/-- C6 amended: the `axis` argument of `fitCylinder` does not influence
the projection handed to `fitCircleRANSAC` (always the `(x, z)`
components) nor anything else it computes — it is only copied into the
`axis` field of the returned fit. -/
theorem fitCylinder_axis_only_labels :
    ∀ (positions : List (ℝ × ℝ × ℝ)) (axis : ℝ × ℝ × ℝ) (sampler : ℕ → List ℕ),
      fitCylinder positions axis sampler =
        (fitCylinder positions (0, 1, 0) sampler).map fun f => { f with axis := axis } := by
  intro positions axis sampler
  unfold fitCylinder
  by_cases hlen : positions.length < 10
  · rw [if_pos hlen, if_pos hlen]
    rfl
  · rw [if_neg hlen, if_neg hlen]
    cases hfit : fitCircleRANSAC (fitCylinderProjection positions) 200 0.05 sampler with
    | none => rfl
    | some circle =>
        dsimp only
        split_ifs with hh
        · rfl
        · rfl

/-- C6 counterexample: for the axis `(1, 0, 0)` and a ten-point input,
the 2-D points `fitCylinder` hands to `fitCircleRANSAC` are not the
components orthogonal to that axis — the source projects to `(x, z)`
regardless of the axis argument. -/
theorem fitCylinder_projection_ignores_axis :
    testAxisPoints.length ≥ 10 ∧
      fitCylinderProjection testAxisPoints ≠
        testAxisPoints.map (dropAxisCoordinateSpec (1, 0, 0)) := by
  constructor
  · simp [testAxisPoints]
  · intro h
    have hL : (fitCylinderProjection testAxisPoints).head? = some (1, 3) := by
      simp [fitCylinderProjection, testAxisPoints]
    have hR : (testAxisPoints.map (dropAxisCoordinateSpec (1, 0, 0))).head? = some (2, 3) := by
      simp [testAxisPoints, dropAxisCoordinateSpec]
    rw [h, hR] at hL
    have : ((2 : ℝ), (3 : ℝ)) = ((1 : ℝ), (3 : ℝ)) := by
      exact Option.some_inj.mp hL
    have h12 : (2 : ℝ) = 1 := congrArg Prod.fst this
    norm_num at h12

theorem sqrt_twentyfive : Real.sqrt 25 = 5 := by
  rw [show (25 : ℝ) = 5 ^ 2 by norm_num]
  exact Real.sqrt_sq (by norm_num)

theorem det3_eval : circleDet sample3 = 2304 := by
  norm_num [circleDet, circleMatrixA, determinant3x3, sample3]

theorem A3_eval : circleA sample3 = 3 := by
  norm_num [circleA, circleDet, circleMatrixA, circleVecB, replaceColumn,
    determinant3x3, sample3]

theorem B3_eval : circleB sample3 = 4 := by
  norm_num [circleB, circleDet, circleMatrixA, circleVecB, replaceColumn,
    determinant3x3, sample3]

theorem C3_eval : circleC sample3 = 0 := by
  norm_num [circleC, circleDet, circleMatrixA, circleVecB, replaceColumn,
    determinant3x3, sample3]

theorem rad3_eval : circleRadius sample3 = 5 := by
  unfold circleRadius
  rw [A3_eval, B3_eval, C3_eval]
  rw [show (0 : ℝ) + 3 * 3 + 4 * 4 = 25 by norm_num]
  exact sqrt_twentyfive

theorem fit3_eval : fitCircle2D sample3 = some testCircle := by
  unfold fitCircle2D
  rw [if_neg (by norm_num [sample3])]
  rw [if_neg (by rw [det3_eval, abs_of_pos (a := (2304 : ℝ)) (by norm_num)]; norm_num)]
  rw [if_neg (by rw [rad3_eval]; norm_num)]
  rw [A3_eval, B3_eval, rad3_eval]
  rfl

theorem det4_eval : circleDet rimSlicePts = 9216 := by
  norm_num [circleDet, circleMatrixA, determinant3x3, rimSlicePts]

theorem A4_eval : circleA rimSlicePts = 3 := by
  norm_num [circleA, circleDet, circleMatrixA, circleVecB, replaceColumn,
    determinant3x3, rimSlicePts]

theorem B4_eval : circleB rimSlicePts = 4 := by
  norm_num [circleB, circleDet, circleMatrixA, circleVecB, replaceColumn,
    determinant3x3, rimSlicePts]

theorem C4_eval : circleC rimSlicePts = 0 := by
  norm_num [circleC, circleDet, circleMatrixA, circleVecB, replaceColumn,
    determinant3x3, rimSlicePts]

theorem rad4_eval : circleRadius rimSlicePts = 5 := by
  unfold circleRadius
  rw [A4_eval, B4_eval, C4_eval]
  rw [show (0 : ℝ) + 3 * 3 + 4 * 4 = 25 by norm_num]
  exact sqrt_twentyfive

theorem fit4_eval : fitCircle2D rimSlicePts = some testCircle := by
  unfold fitCircle2D
  rw [if_neg (by norm_num [rimSlicePts])]
  rw [if_neg (by rw [det4_eval, abs_of_pos (a := (9216 : ℝ)) (by norm_num)]; norm_num)]
  rw [if_neg (by rw [rad4_eval]; norm_num)]
  rw [A4_eval, B4_eval, rad4_eval]
  rfl

theorem draw_eval : ∀ x : ℕ,
    ((testSampler x).filterMap fun i => rimSlicePts.get? i) = sample3 := by
  intro x
  rfl

theorem inliers_all : ∀ p ∈ rimSlicePts, inlierPred testCircle 0.05 p := by
  intro p hp
  fin_cases hp <;>
    · simp only [inlierPred, testCircle]
      norm_num [sqrt_twentyfive]

theorem filter_inliers_eval :
    filterP (inlierPred testCircle 0.05) rimSlicePts = rimSlicePts :=
  filterP_eq_self_of_all _ _ inliers_all

theorem step_eval : ∀ (s : Option Circle2D × ℕ) (x : ℕ),
    ransacStep rimSlicePts 0.05 testSampler s x =
      if 4 > s.2 then (some testCircle, 4) else s := by
  intro s x
  unfold ransacStep
  rw [draw_eval x, fit3_eval]
  dsimp only
  rw [filter_inliers_eval]
  rfl

/-- A `foldl` over `range n` whose step maps the start state to a fixed
point lands on that fixed point. -/
theorem foldl_range_to_fixed {σ : Type} (g : σ → ℕ → σ) (s₀ s₁ : σ)
    (h0 : ∀ x, g s₀ x = s₁) (h1 : ∀ x, g s₁ x = s₁) (n : ℕ) (hn : n ≠ 0) :
    (List.range n).foldl g s₀ = s₁ := by
  cases n with
  | zero => exact absurd rfl hn
  | succ m =>
      rw [List.range_succ_eq_map, List.foldl_cons, h0]
      exact foldl_fixed g s₁ h1 _

theorem fold_eval :
    (List.range 200).foldl (ransacStep rimSlicePts 0.05 testSampler) (none, 0)
      = (some testCircle, 4) := by
  refine foldl_range_to_fixed _ _ _ ?_ ?_ 200 (by norm_num)
  · intro x
    rw [step_eval]
    norm_num
  · intro x
    rw [step_eval]
    norm_num

theorem ransac_eval :
    fitCircleRANSAC rimSlicePts 200 0.05 testSampler = some testCircle := by
  unfold fitCircleRANSAC
  rw [if_neg (by norm_num [rimSlicePts])]
  dsimp only
  rw [fold_eval]
  dsimp only
  rw [filter_inliers_eval]
  rw [if_pos (by norm_num [rimSlicePts])]
  rw [fit4_eval]

theorem testBandCount : ∀ i : ℕ, bandCount testPositions 0 (1/4000) i = 0 := by
  intro i
  unfold bandCount sliceAtHeight
  rw [filterP_eq_nil_of_not]
  · rfl
  · intro a ha
    unfold testPositions at ha
    rw [List.mem_append] at ha
    have hbh : bandHeight 0 (1/4000) i = ((i : ℝ) + 0.5) / 4000 := by
      unfold bandHeight
      ring
    rcases ha with ha | ha
    · have hy : a.2.1 = 1/200 := by
        fin_cases ha <;> norm_num
      rw [hy, hbh]
      intro habs
      rw [abs_sub_lt_iff] at habs
      obtain ⟨hab1, hab2⟩ := habs
      rcases Nat.lt_or_ge i 20 with hlt | hge
      · have hc : (i : ℝ) ≤ 19 := by exact_mod_cast Nat.lt_succ_iff.mp hlt
        norm_num at hab1 hab2
        linarith
      · have hc : (20 : ℝ) ≤ (i : ℝ) := by exact_mod_cast hge
        norm_num at hab1 hab2
        linarith
    · have ha' : a = ((3 : ℝ), (0 : ℝ), (4 : ℝ)) := List.eq_of_mem_replicate ha
      rw [ha', hbh]
      intro habs
      rw [abs_sub_lt_iff] at habs
      obtain ⟨hab1, hab2⟩ := habs
      have hc : (0 : ℝ) ≤ (i : ℝ) := Nat.cast_nonneg i
      norm_num at hab1 hab2
      linarith

theorem testMaxDensity :
    ((List.range 20).map (bandCount testPositions 0 (1/4000))).foldr max 0 = 0 := by
  have hmap : (List.range 20).map (bandCount testPositions 0 (1/4000))
      = List.replicate 20 0 := by
    rw [show (List.replicate 20 0 : List ℕ)
        = (List.range 20).map (fun _ => 0) by simp [List.map_const']]
    exact List.map_congr_left fun j _ => testBandCount j
  rw [hmap, foldr_max_replicate_zero]

theorem rim_eval : findRimHeight testPositions 0 (1/200) 20 = 1/200 := by
  unfold findRimHeight
  dsimp only
  rw [show ((1 : ℝ)/200 - 0) / ((20 : ℕ) : ℝ) = 1/4000 by norm_num]
  have hall : ∀ i, i < 20 →
      ¬((bandCount testPositions 0 (1/4000) i : ℝ) >
        ((((List.range 20).map (bandCount testPositions 0 (1/4000))).foldr max 0 : ℕ) : ℝ)
          * 0.3) := by
    intro i hi
    rw [testBandCount i, testMaxDensity]
    norm_num
  rw [rimScan_eq_none _ _ _ hall]

theorem slice_eval :
    sliceAtHeight testPositions (1/200) ((1/200 - 0) * 0.1) = rimSlicePts := by
  unfold sliceAtHeight testPositions
  rw [filterP_append]
  rw [filterP_cons, if_pos (by norm_num)]
  rw [filterP_cons, if_pos (by norm_num)]
  rw [filterP_cons, if_pos (by norm_num)]
  rw [filterP_cons, if_pos (by norm_num)]
  rw [filterP_nil]
  rw [filterP_replicate, if_neg ?hfill]
  case hfill =>
    intro habs
    rw [abs_sub_lt_iff] at habs
    obtain ⟨hab1, hab2⟩ := habs
    norm_num at hab1 hab2
  simp [rimSlicePts]

theorem testDetect_eval :
    detectVolume testPly testSampler testSampler = some testResult := by
  unfold detectVolume
  rw [if_neg (by simp [getPositions, testPly, testPositions])]
  dsimp only [getPositions, testPly]
  rw [rim_eval, slice_eval, ransac_eval]
  rfl

/-- C4 amended: whenever the rim-circle RANSAC fit succeeds, the normal
path of `detectVolume` returns interior radius `0.85 x` the rim radius,
base height = bottom of the vertical bounds, center
`(rimCenterX, baseHeight, rimCenterZ)`, height `rimHeight - baseHeight`
floored at `0.01`, confidence `0.8` — but the interior volume is
`max 0 (pi * interiorRadius^2 * (rimHeight - baseHeight))` computed from
the UNfloored height, so it equals
`pi * cylinder.radius^2 * cylinder.height` only when the unfloored
height is at least `0.01`. -/
theorem detectVolume_normal_path :
    ∀ (ply : ParsedPly) (rs fs : ℕ → List ℕ) (c : Circle2D),
      ¬((getPositions ply).length < 100) →
      fitCircleRANSAC
        (sliceAtHeight (getPositions ply)
          (findRimHeight (getPositions ply) ply.bounds.min.2.1 ply.bounds.max.2.1 20)
          ((ply.bounds.max.2.1 - ply.bounds.min.2.1) * 0.1)) 200 0.05 rs = some c →
      detectVolume ply rs fs = some
        { cylinder :=
            { center := (c.center.1, ply.bounds.min.2.1, c.center.2)
              radius := c.radius * 0.85
              height := max 0.01
                (findRimHeight (getPositions ply) ply.bounds.min.2.1 ply.bounds.max.2.1 20
                  - ply.bounds.min.2.1)
              axis := (detectOrientation (getPositions ply)).1
              confidence := 0.8 }
          rimHeight := findRimHeight (getPositions ply) ply.bounds.min.2.1
            ply.bounds.max.2.1 20
          baseHeight := ply.bounds.min.2.1
          interiorVolume := max 0 (Real.pi * (c.radius * 0.85) ^ 2 *
            (findRimHeight (getPositions ply) ply.bounds.min.2.1 ply.bounds.max.2.1 20
              - ply.bounds.min.2.1))
          orientation := (detectOrientation (getPositions ply)).2 } := by
  intro ply rs fs c hlen hc
  unfold detectVolume
  rw [if_neg hlen]
  dsimp only
  rw [hc]

/-- Witness for C4's amended theorem, applied to the concrete test
cloud. -/
theorem detectVolume_normal_path_witness :
    (detectVolume testPly testSampler testSampler).isSome = true := by
  rw [detectVolume_normal_path testPly testSampler testSampler testCircle
    (by simp [getPositions, testPly, testPositions])
    (by
      show fitCircleRANSAC
        (sliceAtHeight testPositions (findRimHeight testPositions 0 (1/200) 20)
          ((1/200 - 0) * 0.1)) 200 0.05 testSampler = some testCircle
      rw [rim_eval, slice_eval]
      exact ransac_eval)]
  rfl

/-- C4 counterexample: on the test cloud the rim fit succeeds, the
returned cylinder has radius `17/4` and (floored) height `1/100`, yet
the interior volume is `pi * (17/4)^2 * (1/200)` — computed from the
unfloored height `1/200`, not from `cylinder.height`, even though
`pi * radius^2 * height` is nonnegative here. -/
theorem detectVolume_volume_ignores_height_floor :
    (detectVolume testPly testSampler testSampler).map
        (fun r => (r.cylinder.radius, r.cylinder.height, r.interiorVolume))
      = some (17/4, 1/100, Real.pi * (17/4) ^ 2 * (1/200)) ∧
    Real.pi * (17/4) ^ 2 * (1/200) ≠ Real.pi * (17/4) ^ 2 * (1/100) := by
  constructor
  · rw [testDetect_eval]
    simp only [Option.map_some']
    have hrad : testCircle.radius * 0.85 = 17/4 := by
      simp only [testCircle]
      norm_num
    have hheight : max (0.01 : ℝ) (1/200 - 0) = 1/100 := by
      rw [max_eq_left (by norm_num)]
      norm_num
    simp only [testResult, hheight, hrad]
    rw [max_eq_right (by positivity)]
    norm_num
  · intro h
    have hne : Real.pi * (17/4 : ℝ) ^ 2 ≠ 0 := by positivity
    have hcancel := mul_left_cancel₀ hne h
    norm_num at hcancel

/-- C8: every successful `detectVolume` result — normal rim-circle path
or full-cylinder fallback — carries a cylinder with strictly positive
radius and strictly positive height. -/
theorem detectVolume_cylinder_pos :
    ∀ (ply : ParsedPly) (rs fs : ℕ → List ℕ) (r : VolumeDetectionResult),
      detectVolume ply rs fs = some r →
      0 < r.cylinder.radius ∧ 0 < r.cylinder.height := by
  intro ply rs fs r h
  unfold detectVolume at h
  dsimp only at h
  split_ifs at h with h1
  revert h
  cases hransac2 : fitCircleRANSAC
      (sliceAtHeight (getPositions ply)
        (findRimHeight (getPositions ply) ply.bounds.min.2.1 ply.bounds.max.2.1 20)
        ((ply.bounds.max.2.1 - ply.bounds.min.2.1) * 0.1)) 200 0.05 rs with
  | none =>
      dsimp only
      cases hcyl : fitCylinder (getPositions ply) (0, 1, 0) fs with
      | none =>
          intro h
          cases h
      | some cylinder =>
          intro h
          cases h
          exact fitCylinder_some_pos _ _ _ _ hcyl
  | some rimCircle =>
      intro h
      cases h
      constructor
      · have hr := fitCircleRANSAC_some_radius_pos _ _ _ _ _ hransac2
        have : (0 : ℝ) < 0.85 := by norm_num
        exact mul_pos hr this
      · exact lt_max_of_lt_left (by norm_num)

/-- Witness for C8 at the concrete test cloud. -/
theorem detectVolume_cylinder_pos_witness :
    0 < testResult.cylinder.radius ∧ 0 < testResult.cylinder.height :=
  detectVolume_cylinder_pos testPly testSampler testSampler testResult testDetect_eval

/-- C10: `criticalTipoverAngle` always lands in the closed interval
`[0, pi/2]`, and on the `atan2` branch — reached when both the vertical
offset and the effective radius are strictly positive — the value is
strictly between `0` and `pi/2`. -/
theorem criticalTipoverAngle_range :
    ∀ (com : Vector3) (baseRadius : ℝ) (baseCenter : Vector3),
      (0 ≤ criticalTipoverAngle com baseRadius baseCenter ∧
        criticalTipoverAngle com baseRadius baseCenter ≤ Real.pi / 2) ∧
      (0 < com.y - baseCenter.y →
        0 < baseRadius - Real.sqrt ((com.x - baseCenter.x) ^ 2 + (com.z - baseCenter.z) ^ 2) →
        0 < criticalTipoverAngle com baseRadius baseCenter ∧
          criticalTipoverAngle com baseRadius baseCenter < Real.pi / 2) := by
  intro com baseRadius baseCenter
  unfold criticalTipoverAngle
  dsimp only
  split_ifs with h1 h2
  · exact ⟨⟨by positivity, le_rfl⟩, fun hv _ => absurd h1 (by linarith)⟩
  · refine ⟨⟨le_rfl, by positivity⟩, fun hv he => absurd h2 (by linarith)⟩
  · push_neg at h1 h2
    have hv : 0 < com.y - baseCenter.y := h1
    have he : 0 < baseRadius -
        Real.sqrt ((com.x - baseCenter.x) ^ 2 + (com.z - baseCenter.z) ^ 2) := h2
    have hq : 0 < (baseRadius -
        Real.sqrt ((com.x - baseCenter.x) ^ 2 + (com.z - baseCenter.z) ^ 2)) /
        (com.y - baseCenter.y) := div_pos he hv
    have hval : atan2 (baseRadius -
        Real.sqrt ((com.x - baseCenter.x) ^ 2 + (com.z - baseCenter.z) ^ 2))
        (com.y - baseCenter.y)
        = Real.arctan ((baseRadius -
            Real.sqrt ((com.x - baseCenter.x) ^ 2 + (com.z - baseCenter.z) ^ 2)) /
            (com.y - baseCenter.y)) := by
      unfold atan2
      rw [if_pos hv]
    have hpos : 0 < Real.arctan ((baseRadius -
        Real.sqrt ((com.x - baseCenter.x) ^ 2 + (com.z - baseCenter.z) ^ 2)) /
        (com.y - baseCenter.y)) := by
      have h0 := Real.arctan_strictMono hq
      rwa [Real.arctan_zero] at h0
    have hlt : Real.arctan ((baseRadius -
        Real.sqrt ((com.x - baseCenter.x) ^ 2 + (com.z - baseCenter.z) ^ 2)) /
        (com.y - baseCenter.y)) < Real.pi / 2 := Real.arctan_lt_pi_div_two _
    rw [hval]
    exact ⟨⟨le_of_lt hpos, le_of_lt hlt⟩, fun _ _ => ⟨hpos, hlt⟩⟩

/-- Witness for C10 at a concrete input on the `atan2` branch. -/
theorem criticalTipoverAngle_range_witness :
    0 < criticalTipoverAngle ⟨0, 1, 0⟩ 1 ⟨0, 0, 0⟩ ∧
      criticalTipoverAngle ⟨0, 1, 0⟩ 1 ⟨0, 0, 0⟩ < Real.pi / 2 :=
  (criticalTipoverAngle_range ⟨0, 1, 0⟩ 1 ⟨0, 0, 0⟩).2
    (by norm_num)
    (by simp only [sub_zero, sub_self]; norm_num [Real.sqrt_eq_zero'])

end

end Cup
